import Mathlib

/-!
Shallow embedding of the faucet-claim backend core
(src/models/Task.js, src/models/Participant.js, src/models/User.js,
src/routes/tasks.js, src/routes/participants.js,
src/services/contractService.js, src/services/snapchainService.js,
src/services/sponsoredGasService.js).

External collaborators (Mongo store lookups, Snapchain HTTP API, the
on-chain contract, the paymaster) are modelled by passing their observed
responses as explicit parameters: a raw provider response is an
Except Unit value, where the error case stands for a thrown request
exception.  Each route handler becomes a pure function from the records
it reads plus those responses to an Except of an HTTP error response or
the updated records.
-/

namespace FaucetClaim

/-- Task lifecycle status enum (src/models/Task.js, status field). -/
inductive TaskStatus
  | DRAFT
  | ACTIVE
  | COMPLETED
  | CANCELLED
deriving DecidableEq, Repr

/-- Participant lifecycle status enum (src/models/Participant.js, status field). -/
inductive PStatus
  | PENDING
  | VERIFIED
  | CLAIMED
  | REJECTED
deriving DecidableEq, Repr

/-- Task type enum (src/models/Task.js, taskType field). -/
inductive TaskType
  | FOLLOW_USER
  | LIKE_CAST
  | RECAST_CAST
  | JOIN_CHANNEL
deriving DecidableEq, Repr

/-- Type-specific target data (src/models/Task.js, targetData field). -/
structure TargetData where
  userToFollow : Option String := none
  castHashToLike : Option String := none
  castHashToRecast : Option String := none
  channelToJoin : Option String := none
deriving DecidableEq, Repr

/-- Join requirements (src/models/Task.js, requirements field, with its defaults). -/
structure Requirements where
  minimumFollowers : Nat := 0
  mustBeVerified : Bool := false
deriving DecidableEq, Repr

/-- An entry of the embedded participants array on the Task document
(src/models/Task.js, participants field).  Only the status is relevant
to any handler (the cancel route reads it); the other subfields are
never consulted. -/
structure EmbeddedParticipant where
  status : PStatus := .PENDING
deriving DecidableEq, Repr

/-- Task document (src/models/Task.js).  Monetary amounts are stored as
decimal strings, as in the schema (String fields holding BigInt values).
The id field stands for the Mongo ObjectId. -/
structure Task where
  id : Nat := 0
  creator : Nat
  title : String
  description : String
  taskType : TaskType
  targetData : TargetData
  rewardPerParticipant : String := "1000000000000000"
  maxParticipants : Nat
  currentParticipants : Nat := 0
  totalFunding : String
  contractTaskId : Option Nat := none
  status : TaskStatus := .DRAFT
  expiresAt : Nat
  tags : List String := []
  requirements : Requirements := {}
  participants : List EmbeddedParticipant := []
  transactionHash : Option String := none
deriving DecidableEq, Repr

/-- Proof payload (src/models/Participant.js, proofData subdocument). -/
structure ProofData where
  screenshotUrl : Option String := none
  proofTransactionHash : Option String := none
  warpcastUrl : Option String := none
  additionalNotes : Option String := none
deriving DecidableEq, Repr

/-- Modelled claim signature.  In src/services/contractService.js,
generateClaimSignature signs solidityPackedKeccak256 of the tuple
(taskId, developerAddress, rewardAmount) with the backend wallet via
ethers signMessage, which is RFC 6979 deterministic ECDSA: the produced
signature is a pure function of the packed tuple.  We model the opaque
signature bytes by the tuple they bind. -/
structure Sig where
  sigTaskId : Option Nat
  claimant : String
  amount : String
deriving DecidableEq, Repr

/-- Deterministic signing (src/services/contractService.js, generateClaimSignature). -/
def generateClaimSignature (taskId : Option Nat) (developerAddress : String)
    (rewardAmount : String) : Sig :=
  { sigTaskId := taskId, claimant := developerAddress, amount := rewardAmount }

/-- Participant document (src/models/Participant.js), with the schema defaults. -/
structure Participant where
  user : Nat
  task : Nat
  status : PStatus := .PENDING
  proofSubmitted : Bool := false
  proofData : Option ProofData := none
  verificationNotes : Option String := none
  rewardAmount : String := "0"
  claimSignature : Option Sig := none
  claimedAt : Option Nat := none
  transactionHash : Option String := none
deriving DecidableEq, Repr

/-- User document (src/models/User.js), restricted to the fields the
embedded handlers read or write, with the schema defaults. -/
structure User where
  fid : Nat
  walletAddress : String
  isVerified : Bool := false
  totalTasksCreated : Nat := 0
  totalTasksCompleted : Nat := 0
  totalRewardsEarned : String := "0"
  reputation : Nat := 0
deriving DecidableEq, Repr

/-- A JSON error response: HTTP status code plus the error message. -/
structure ErrResp where
  code : Nat
  error : String
deriving DecidableEq, Repr

/-- Farcaster user object returned by the Snapchain API. -/
structure FUser where
  fid : Nat
  follower_count : Nat := 0
deriving DecidableEq, Repr

/-- A like or recast reaction returned by the Snapchain API; the handlers
only read the fid of the reacting user. -/
structure Reaction where
  userFid : Nat
deriving DecidableEq, Repr

/-- Opaque cast object returned by the Snapchain API. -/
structure Cast where
  hash : String
deriving DecidableEq, Repr

/-- src/services/snapchainService.js getUserByUsername: returns the user
from the response, and null when the request throws (the catch branch). -/
def getUserByUsername (resp : Except Unit (Option FUser)) : Option FUser :=
  match resp with
  | .ok u => u
  | .error _ => none

/-- src/services/snapchainService.js getUserByFid: same error handling. -/
def getUserByFid (resp : Except Unit (Option FUser)) : Option FUser :=
  match resp with
  | .ok u => u
  | .error _ => none

/-- src/services/snapchainService.js getCast: null on a thrown request. -/
def getCast (resp : Except Unit (Option Cast)) : Option Cast :=
  match resp with
  | .ok c => c
  | .error _ => none

/-- src/services/snapchainService.js getCastLikes: the likes list, empty
on a thrown request (the catch branch returns the empty array). -/
def getCastLikes (resp : Except Unit (List Reaction)) : List Reaction :=
  match resp with
  | .ok l => l
  | .error _ => []

/-- src/services/snapchainService.js getCastRecasts: same error handling. -/
def getCastRecasts (resp : Except Unit (List Reaction)) : List Reaction :=
  match resp with
  | .ok l => l
  | .error _ => []

/-- src/services/snapchainService.js getUserFollowing: same error handling. -/
def getUserFollowing (resp : Except Unit (List FUser)) : List FUser :=
  match resp with
  | .ok l => l
  | .error _ => []

/-- src/services/snapchainService.js getChannelMembers: same error handling. -/
def getChannelMembers (resp : Except Unit (List FUser)) : List FUser :=
  match resp with
  | .ok l => l
  | .error _ => []

/-- src/services/snapchainService.js getChannelFollowers: same error handling. -/
def getChannelFollowers (resp : Except Unit (List FUser)) : List FUser :=
  match resp with
  | .ok l => l
  | .error _ => []

/-- The raw Snapchain API responses observed while one verification
request runs; an error value stands for a thrown HTTP request. -/
structure SnapEnv where
  userByUsernameResp : Except Unit (Option FUser)
  followingResp : Except Unit (List FUser)
  likesResp : Except Unit (List Reaction)
  recastsResp : Except Unit (List Reaction)
  membersResp : Except Unit (List FUser)
  channelFollowersResp : Except Unit (List FUser)

/-- src/services/snapchainService.js verifyUserFollowsUser: resolve the
target username; when absent report false; otherwise check whether the
target fid appears in the following list of the user. -/
def verifyUserFollowsUser (env : SnapEnv) : Bool :=
  match getUserByUsername env.userByUsernameResp with
  | none => false
  | some targetUser =>
    (getUserFollowing env.followingResp).any fun u => decide (u.fid = targetUser.fid)

/-- src/services/snapchainService.js verifyCastLike. -/
def verifyCastLike (env : SnapEnv) (userFid : Nat) : Bool :=
  (getCastLikes env.likesResp).any fun r => decide (r.userFid = userFid)

/-- src/services/snapchainService.js verifyCastRecast. -/
def verifyCastRecast (env : SnapEnv) (userFid : Nat) : Bool :=
  (getCastRecasts env.recastsResp).any fun r => decide (r.userFid = userFid)

/-- src/services/snapchainService.js verifyChannelMembership: member of
the channel or follower of the channel. -/
def verifyChannelMembership (env : SnapEnv) (userFid : Nat) : Bool :=
  ((getChannelMembers env.membersResp).any fun m => decide (m.fid = userFid)) ||
  ((getChannelFollowers env.channelFollowersResp).any fun f => decide (f.fid = userFid))

/-- src/routes/participants.js autoVerifyTask: dispatch on the task type;
a missing type-specific target yields false, and any error inside is
caught and yields false (the inner service calls already return false or
empty data on provider errors, so the model is total). -/
def autoVerifyTask (task : Task) (user : User) (env : SnapEnv) : Bool :=
  match task.taskType with
  | .FOLLOW_USER =>
    match task.targetData.userToFollow with
    | some _ => verifyUserFollowsUser env
    | none => false
  | .LIKE_CAST =>
    match task.targetData.castHashToLike with
    | some _ => verifyCastLike env user.fid
    | none => false
  | .RECAST_CAST =>
    match task.targetData.castHashToRecast with
    | some _ => verifyCastRecast env user.fid
    | none => false
  | .JOIN_CHANNEL =>
    match task.targetData.channelToJoin with
    | some _ => verifyChannelMembership env user.fid
    | none => false

/-- Digit accumulator for decimal parsing. -/
def decToNatAux : List Char → Nat → Nat
  | [], acc => acc
  | c :: cs, acc => decToNatAux cs (acc * 10 + (c.toNat - 48))

/-- Parse a stored decimal string back to a number, the model of
JavaScript BigInt applied to a stored amount string.  All amounts the
handlers store are decimal numerals. -/
def decToNat (s : String) : Nat :=
  decToNatAux s.data 0

/-- Bool check against a minimum follower requirement: false when the
Farcaster user lookup returned null or the follower count is below the
minimum (the negated condition of the join route guard). -/
def meetsMinimumFollowers (minFollowers : Nat) (fu : Option FUser) : Bool :=
  match fu with
  | none => false
  | some u => decide (minFollowers ≤ u.follower_count)

/-- src/routes/participants.js, POST /join/:taskId.  Parameters: the task
found by id (none when missing), any existing Participant for the
(user, task) pair, the authenticated user record, the ids, the current
time, and the Farcaster user returned by getUserByFid for the follower
check.  On success returns the updated task and the created PENDING
participant. -/
def joinTask (taskQ : Option Task) (existing : Option Participant)
    (user : User) (userId taskId : Nat) (now : Nat)
    (farcasterUser : Option FUser) : Except ErrResp (Task × Participant) :=
  match taskQ with
  | none => .error ⟨404, "Task not found"⟩
  | some task =>
    if task.status ≠ .ACTIVE then
      .error ⟨400, "Task is not active"⟩
    else if task.maxParticipants ≤ task.currentParticipants then
      .error ⟨400, "Task is full"⟩
    else if task.expiresAt < now then
      .error ⟨400, "Task has expired"⟩
    else if existing.isSome then
      .error ⟨400, "Already joined this task"⟩
    else if task.requirements.mustBeVerified && !user.isVerified then
      .error ⟨400, "Must be verified to join this task"⟩
    else if 0 < task.requirements.minimumFollowers ∧
        meetsMinimumFollowers task.requirements.minimumFollowers farcasterUser = false then
      .error ⟨400,
        "Must have at least " ++ toString task.requirements.minimumFollowers ++ " followers"⟩
    else
      .ok ({ task with currentParticipants := task.currentParticipants + 1 },
           { user := userId, task := taskId })

/-- src/routes/participants.js, POST /submit-proof/:taskId.  The proofData
parameter is none when the request body lacks it (the notEmpty validator
is checked in this handler).  Returns the updated participant and the
autoVerified flag of the response. -/
def submitProof (participantQ : Option Participant) (task : Task) (user : User)
    (proofDataQ : Option ProofData) (env : SnapEnv) :
    Except ErrResp (Participant × Bool) :=
  match proofDataQ with
  | none => .error ⟨400, "Proof data is required"⟩
  | some pd =>
    match participantQ with
    | none => .error ⟨404, "Participant not found"⟩
    | some p =>
      if p.status ≠ .PENDING then
        .error ⟨400, "Cannot submit proof for this participant status"⟩
      else
        let p1 := { p with proofSubmitted := true, proofData := some pd }
        if autoVerifyTask task user env then
          .ok ({ p1 with
                 status := .VERIFIED,
                 verificationNotes := some "Auto-verified via Snapchain API" }, true)
        else
          .ok (p1, false)

/-- Paymaster sponsorship data returned by pm_getPaymasterAndData (we keep
only an opaque payload; the handlers never inspect its contents). -/
structure PaymasterData where
  paymasterAndData : String := ""
deriving DecidableEq, Repr

/-- The gas-sponsorship configuration and the raw paymaster response for
one request (src/services/sponsoredGasService.js).  An error response
stands for a thrown HTTP request, an ok none for a provider-level error
or malformed result (the code maps response.data.error to null). -/
structure SponsorEnv where
  enabled : Bool
  paymasterResp : Except Unit (Option PaymasterData)

/-- src/services/sponsoredGasService.js getPaymasterAndData: null when
disabled, when the provider reports an error, or when the request throws. -/
def getPaymasterAndData (env : SponsorEnv) : Option PaymasterData :=
  if env.enabled = false then none
  else
    match env.paymasterResp with
    | .ok d => d
    | .error _ => none

/-- Result of prepareSponsoredClaim (src/services/sponsoredGasService.js). -/
structure SponsoredResult where
  sponsored : Bool
  message : Option String := none
  paymaster : Option PaymasterData := none
deriving DecidableEq, Repr

/-- src/services/sponsoredGasService.js prepareSponsoredClaim: a total
function; every failure path (disabled configuration, provider error,
thrown request) returns a sponsored=false result instead of raising. -/
def prepareSponsoredClaim (env : SponsorEnv) (contractAddress : String)
    (taskId : Option Nat) (rewardAmount : String) (signature : Sig)
    (userAddress : String) : SponsoredResult :=
  if env.enabled = false then
    { sponsored := false, message := some "Sponsored gas not enabled" }
  else
    match getPaymasterAndData env with
    | some d => { sponsored := true, paymaster := some d }
    | none => { sponsored := false, message := some "Paymaster not available for this transaction" }

/-- The successful response body of the claim route, restricted to the
fields the spec talks about. -/
structure ClaimResponse where
  signature : Sig
  taskId : Option Nat
  rewardAmount : String
  contractAddress : String
  sponsoredEnabled : Bool
  sponsoredMessage : String
deriving DecidableEq, Repr

/-- src/routes/participants.js, POST /claim/:taskId (requestClaim).
hasClaimedResp is the result of contractService.hasUserClaimed on the
reward ledger; its error case models a thrown contract call, which the
route catch turns into a 500.  On success returns the updated
participant (claimSignature and rewardAmount persisted) and the
response. -/
def requestClaim (participantQ : Option Participant) (task : Task) (user : User)
    (hasClaimedResp : Except Unit Bool) (sponsorEnv : SponsorEnv)
    (contractAddress : String) : Except ErrResp (Participant × ClaimResponse) :=
  match participantQ with
  | none => .error ⟨404, "Participant not found"⟩
  | some p =>
    if p.status ≠ .VERIFIED then
      .error ⟨400, "Task not verified yet"⟩
    else if p.claimedAt.isSome then
      .error ⟨400, "Reward already claimed"⟩
    else
      match hasClaimedResp with
      | .error _ => .error ⟨500, "Error checking if user claimed"⟩
      | .ok true => .error ⟨400, "Reward already claimed on blockchain"⟩
      | .ok false =>
        let signature :=
          generateClaimSignature task.contractTaskId user.walletAddress
            task.rewardPerParticipant
        let sponsoredData :=
          prepareSponsoredClaim sponsorEnv contractAddress task.contractTaskId
            task.rewardPerParticipant signature user.walletAddress
        .ok ({ p with
               claimSignature := some signature,
               rewardAmount := task.rewardPerParticipant },
          { signature := signature,
            taskId := task.contractTaskId,
            rewardAmount := task.rewardPerParticipant,
            contractAddress := contractAddress,
            sponsoredEnabled := sponsoredData.sponsored,
            sponsoredMessage :=
              if sponsoredData.sponsored then
                "Gas fees sponsored! No ETH needed for this transaction."
              else
                (sponsoredData.message).getD "Regular gas payment required" })

/-- src/routes/participants.js, POST /confirm-claim/:taskId.  Note: the
route declares a notEmpty validator for transactionHash but never calls
validationResult, and it performs no status or claimSignature check at
all; after the participant lookup it unconditionally sets status CLAIMED,
claimedAt and transactionHash, then updates the user aggregates with
BigInt string arithmetic. -/
def confirmClaim (participantQ : Option Participant) (user : User)
    (transactionHash : String) (now : Nat) :
    Except ErrResp (Participant × User) :=
  match participantQ with
  | none => .error ⟨404, "Participant not found"⟩
  | some p =>
    .ok ({ p with
           status := .CLAIMED,
           claimedAt := some now,
           transactionHash := some transactionHash },
         { user with
           totalTasksCompleted := user.totalTasksCompleted + 1,
           reputation := user.reputation + 10,
           totalRewardsEarned :=
             Nat.repr (decToNat user.totalRewardsEarned + decToNat p.rewardAmount) })

/-- src/routes/participants.js, POST /verify/:participantId (manual
verification by the task creator).  The isBoolean validator result is
never checked by the handler, so approved arrives as given.  The task
parameter is the populated parent task of the participant. -/
def verifyParticipant (participantQ : Option Participant) (task : Task)
    (requesterId : Nat) (approved : Bool) (notes : Option String) :
    Except ErrResp Participant :=
  match participantQ with
  | none => .error ⟨404, "Participant not found"⟩
  | some p =>
    if task.creator ≠ requesterId then
      .error ⟨403, "Not authorized"⟩
    else if p.status ≠ .PENDING then
      .error ⟨400, "Participant not in pending status"⟩
    else
      .ok { p with
            status := if approved then .VERIFIED else .REJECTED,
            verificationNotes := some (notes.getD "") }

/-- src/routes/participants.js, POST /re-verify/:participantId.  No
status guard: re-verification runs from any current status and on
success overwrites the status with VERIFIED. -/
def reVerify (participantQ : Option Participant) (task : Task) (user : User)
    (requesterId : Nat) (env : SnapEnv) : Except ErrResp (Participant × Bool) :=
  match participantQ with
  | none => .error ⟨404, "Participant not found"⟩
  | some p =>
    if task.creator ≠ requesterId then
      .error ⟨403, "Not authorized"⟩
    else if autoVerifyTask task user env then
      .ok ({ p with
             status := .VERIFIED,
             verificationNotes := some "Re-verified via Snapchain API" }, true)
    else
      .ok (p, false)

/-- src/routes/tasks.js, DELETE /:id (cancel).  The claimed-reward guard
reads the embedded participants array of the Task document, not the
Participant collection. -/
def cancelTask (taskQ : Option Task) (requesterId : Nat) : Except ErrResp Task :=
  match taskQ with
  | none => .error ⟨404, "Task not found"⟩
  | some task =>
    if task.creator ≠ requesterId then
      .error ⟨403, "Not authorized"⟩
    else if task.participants.any (fun p => decide (p.status = .CLAIMED)) then
      .error ⟨400, "Cannot cancel task with claimed rewards"⟩
    else
      .ok { task with status := .CANCELLED }

/-- The request body of task creation (src/routes/tasks.js POST /).  The
reward field models any reward amount a caller may supply: the handler
never destructures or reads such a field. -/
structure CreateReq where
  title : String
  description : String
  taskType : TaskType
  targetData : TargetData
  maxParticipants : Nat
  expiresAt : Nat
  tags : List String := []
  requirements : Option Requirements := none
  reward : Option String := none
deriving DecidableEq, Repr

/-- Snapchain responses consumed by the target-existence validation of
task creation. -/
structure CreateEnv where
  userByUsernameResp : Except Unit (Option FUser)
  castResp : Except Unit (Option Cast)

/-- Result of contractService.createTaskOnChain: the on-chain task id
parsed from the TaskCreated event and the transaction hash.  The error
case models any thrown escrow failure (insufficient balance, network or
contract error, missing event). -/
structure ContractResult where
  taskId : Nat
  transactionHash : String
deriving DecidableEq, Repr

/-- The target validation switch of src/routes/tasks.js POST /: returns
the error message, or none when the target is valid. -/
def validateTarget (taskType : TaskType) (td : TargetData) (env : CreateEnv) :
    Option String :=
  match taskType with
  | .FOLLOW_USER =>
    match td.userToFollow with
    | none => some "User to follow is required"
    | some _ =>
      match getUserByUsername env.userByUsernameResp with
      | none => some "Target user not found on Farcaster"
      | some _ => none
  | .LIKE_CAST =>
    match td.castHashToLike with
    | none => some "Cast hash to like is required"
    | some _ =>
      match getCast env.castResp with
      | none => some "Cast not found"
      | some _ => none
  | .RECAST_CAST =>
    match td.castHashToRecast with
    | none => some "Cast hash to recast is required"
    | some _ =>
      match getCast env.castResp with
      | none => some "Cast not found"
      | some _ => none
  | .JOIN_CHANNEL =>
    match td.channelToJoin with
    | none => some "Channel to join is required"
    | some _ => none

/-- src/routes/tasks.js, POST / (create).  The first component of the
result is the Task record visible in the store after the request: the
handler persists a DRAFT record, calls createTaskOnChain, and on escrow
failure deletes the DRAFT record before reporting a 500, so the stored
record is none on every failure path.  On success the record carries the
on-chain task id and transaction hash and becomes ACTIVE.
rewardPerParticipant is the hard-coded constant and totalFunding the
BigInt product, both decimal strings. -/
def createTask (creatorId : Nat) (req : CreateReq) (env : CreateEnv)
    (contractResult : Except Unit ContractResult) :
    Option Task × Except ErrResp Task :=
  if req.title = "" then
    (none, .error ⟨400, "Title is required"⟩)
  else if req.description = "" then
    (none, .error ⟨400, "Description is required"⟩)
  else if req.maxParticipants < 1 ∨ 1000 < req.maxParticipants then
    (none, .error ⟨400, "Max participants must be between 1 and 1000"⟩)
  else
    match validateTarget req.taskType req.targetData env with
    | some msg => (none, .error ⟨400, msg⟩)
    | none =>
      let draft : Task :=
        { creator := creatorId,
          title := req.title,
          description := req.description,
          taskType := req.taskType,
          targetData := req.targetData,
          rewardPerParticipant := "1000000000000000",
          maxParticipants := req.maxParticipants,
          currentParticipants := 0,
          totalFunding := Nat.repr (1000000000000000 * req.maxParticipants),
          contractTaskId := none,
          status := .DRAFT,
          expiresAt := req.expiresAt,
          tags := req.tags,
          requirements := req.requirements.getD {},
          participants := [],
          transactionHash := none }
      match contractResult with
      | .error _ => (none, .error ⟨500, "Failed to create task on blockchain"⟩)
      | .ok r =>
        let active :=
          { draft with
            contractTaskId := some r.taskId,
            transactionHash := some r.transactionHash,
            status := .ACTIVE }
        (some active, .ok active)

/-- A degraded Snapchain environment: every raw request either threw or,
for the target-user lookup, reported not found.  This is the premise of
the conservative-verification property. -/
def SnapEnv.degraded (env : SnapEnv) : Prop :=
  (env.userByUsernameResp = Except.error () ∨ env.userByUsernameResp = Except.ok none) ∧
  env.followingResp = Except.error () ∧
  env.likesResp = Except.error () ∧
  env.recastsResp = Except.error () ∧
  env.membersResp = Except.error () ∧
  env.channelFollowersResp = Except.error ()

/-- Concrete PENDING participant that has never requested a claim
(claimSignature null, rewardAmount at its schema default). -/
def participantC1 : Participant := { user := 7, task := 3 }

/-- Concrete user with fresh aggregate counters. -/
def userC1 : User := { fid := 7, walletAddress := "0xA1" }

/-- Concrete ACTIVE task whose embedded participants array is empty, the
state the join route always leaves it in (join writes a Participant
collection record and the counter, never this array). -/
def taskC2 : Task :=
  { id := 3, creator := 1, title := "t", description := "d",
    taskType := .JOIN_CHANNEL,
    targetData := { channelToJoin := some "lean" },
    maxParticipants := 1, currentParticipants := 1,
    totalFunding := "1000000000000000",
    contractTaskId := some 5, status := .ACTIVE, expiresAt := 1700000000 }

/-- Concrete Participant collection record for taskC2 that has already
claimed its reward. -/
def participantC2 : Participant :=
  { user := 7, task := 3, status := .CLAIMED,
    rewardAmount := "1000000000000000",
    claimSignature := some (generateClaimSignature (some 5) "0xA1" "1000000000000000"),
    claimedAt := some 1690000000, transactionHash := some "0xbeef" }

/-- Concrete REJECTED participant. -/
def participantC3 : Participant := { user := 8, task := 4, status := .REJECTED }

/-- Concrete user owning participantC3. -/
def userC3 : User := { fid := 8, walletAddress := "0xA3" }

/-- Concrete ACTIVE on-chain task for the claim-idempotence check. -/
def taskC4 : Task :=
  { id := 10, creator := 1, title := "t", description := "d",
    taskType := .LIKE_CAST,
    targetData := { castHashToLike := some "0xcast" },
    maxParticipants := 2, currentParticipants := 1,
    totalFunding := "2000000000000000",
    contractTaskId := some 9, status := .ACTIVE, expiresAt := 1700000000 }

/-- The signature a first successful requestClaim stored for taskC4. -/
def sigC4 : Sig := generateClaimSignature (some 9) "0xA4" "1000000000000000"

/-- Concrete VERIFIED participant that already holds sigC4. -/
def participantC4 : Participant :=
  { user := 3, task := 10, status := .VERIFIED,
    claimSignature := some sigC4, rewardAmount := "1000000000000000" }

/-- Concrete claimant user for taskC4. -/
def userC4 : User := { fid := 3, walletAddress := "0xA4" }

/-- Sponsorship environment with the provider request throwing. -/
def sponsorC4 : SponsorEnv := { enabled := false, paymasterResp := Except.error () }

/-- The participant record a second requestClaim writes back. -/
def participantC4out : Participant :=
  { participantC4 with claimSignature := some sigC4, rewardAmount := "1000000000000000" }

/-- The response body of the second requestClaim. -/
def respC4 : ClaimResponse :=
  { signature := sigC4, taskId := some 9, rewardAmount := "1000000000000000",
    contractAddress := "0xCC", sponsoredEnabled := false,
    sponsoredMessage := "Sponsored gas not enabled" }

/-- Concrete ACTIVE on-chain task for the hasClaimed guard check. -/
def taskC5 : Task :=
  { id := 6, creator := 1, title := "t", description := "d",
    taskType := .RECAST_CAST,
    targetData := { castHashToRecast := some "0xcast" },
    maxParticipants := 1, currentParticipants := 1,
    totalFunding := "1000000000000000",
    contractTaskId := some 7, status := .ACTIVE, expiresAt := 1700000000 }

/-- Concrete VERIFIED participant with no signature yet. -/
def participantC5 : Participant := { user := 2, task := 6, status := .VERIFIED }

/-- Concrete claimant user for taskC5. -/
def userC5 : User := { fid := 2, walletAddress := "0xA5" }

/-- Disabled sponsorship configuration. -/
def sponsorC5 : SponsorEnv := { enabled := false, paymasterResp := Except.ok none }

/-- Snapchain environment in which every request throws. -/
def envC6 : SnapEnv :=
  { userByUsernameResp := Except.error (), followingResp := Except.error (),
    likesResp := Except.error (), recastsResp := Except.error (),
    membersResp := Except.error (), channelFollowersResp := Except.error () }

/-- Concrete FOLLOW_USER task whose verification will be attempted. -/
def taskC6 : Task :=
  { id := 5, creator := 1, title := "t", description := "d",
    taskType := .FOLLOW_USER,
    targetData := { userToFollow := some "alice" },
    maxParticipants := 1, currentParticipants := 1,
    totalFunding := "1000000000000000",
    contractTaskId := some 4, status := .ACTIVE, expiresAt := 1700000000 }

/-- Concrete PENDING participant submitting proof. -/
def participantC6 : Participant := { user := 9, task := 5 }

/-- Concrete user submitting proof. -/
def userC6 : User := { fid := 9, walletAddress := "0xA6" }

/-- Concrete proof payload. -/
def proofC6 : ProofData := { warpcastUrl := some "https://warpcast.example/proof" }

/-- Concrete joinable ACTIVE task with a free slot. -/
def taskC7 : Task :=
  { id := 20, creator := 1, title := "t", description := "d",
    taskType := .JOIN_CHANNEL,
    targetData := { channelToJoin := some "lean" },
    maxParticipants := 3, currentParticipants := 1,
    totalFunding := "3000000000000000",
    contractTaskId := some 2, status := .ACTIVE, expiresAt := 1000 }

/-- Concrete joining user. -/
def userC7 : User := { fid := 4, walletAddress := "0xA7" }

/-- The task record after the successful join. -/
def taskC7out : Task := { taskC7 with currentParticipants := 2 }

/-- The participant record the successful join creates. -/
def participantC7out : Participant := { user := 11, task := 20 }

/-- Concrete creation request; the reward field carries a value the
handler must ignore. -/
def reqC8 : CreateReq :=
  { title := "t", description := "d", taskType := .JOIN_CHANNEL,
    targetData := { channelToJoin := some "lean" },
    maxParticipants := 5, expiresAt := 1000 }

/-- Creation environment (no lookups needed for JOIN_CHANNEL). -/
def envC8 : CreateEnv := { userByUsernameResp := Except.ok none, castResp := Except.ok none }

/-- Concrete VERIFIED participant for the sponsorship-degradation check. -/
def participantC9 : Participant := { user := 12, task := 6, status := .VERIFIED }

/-- Concrete claimant for the sponsorship-degradation check. -/
def userC9 : User := { fid := 12, walletAddress := "0xA9" }

/-- Disabled sponsorship configuration for the degradation check. -/
def envC9 : SponsorEnv := { enabled := false, paymasterResp := Except.ok none }

/-- A signature value used to instantiate the sponsorship check. -/
def sigC9 : Sig := generateClaimSignature (some 7) "0xA9" "1000000000000000"

/-- Concrete creation request supplying a reward value the handler
must ignore. -/
def reqC10 : CreateReq :=
  { title := "t", description := "d", taskType := .JOIN_CHANNEL,
    targetData := { channelToJoin := some "lean" },
    maxParticipants := 4, expiresAt := 1000, reward := some "999" }

/-- Creation environment for reqC10. -/
def envC10 : CreateEnv := { userByUsernameResp := Except.ok none, castResp := Except.ok none }

/-- Successful escrow result for reqC10. -/
def crC10 : ContractResult := { taskId := 3, transactionHash := "0xfeed" }

/-- The ACTIVE task record reqC10 produces. -/
def taskC10 : Task :=
  { creator := 1, title := "t", description := "d", taskType := .JOIN_CHANNEL,
    targetData := { channelToJoin := some "lean" },
    rewardPerParticipant := "1000000000000000",
    maxParticipants := 4, currentParticipants := 0,
    totalFunding := "4000000000000000",
    contractTaskId := some 3, status := .ACTIVE, expiresAt := 1000,
    transactionHash := some "0xfeed" }

/-- Claim C1: the claim states that confirmClaim is only legal after a
claim signature has been issued and that a second confirmClaim is
rejected.  The code has no such guard: on a participant whose
claimSignature is null (here a fresh PENDING participant) the call
succeeds, sets status CLAIMED, claimedAt and transactionHash, and
increments the aggregate counters of the user. -/
theorem confirmClaim_without_signature_mutates :
    participantC1.claimSignature = none ∧
    participantC1.status = PStatus.PENDING ∧
    confirmClaim (some participantC1) userC1 "0xabc" 1700000000 =
      Except.ok
        ({ participantC1 with
           status := PStatus.CLAIMED,
           claimedAt := some 1700000000,
           transactionHash := some "0xabc" },
         { userC1 with
           totalTasksCompleted := 1,
           reputation := 10,
           totalRewardsEarned := "0" }) :=
  ⟨rfl, rfl, rfl⟩

/-- Claim C2: the claim states that cancel fails when any participant of
the task has status CLAIMED.  The guard of the cancel route reads the
embedded participants array of the Task document, which the join route
never populates, so on taskC2, whose Participant collection record
participantC2 has status CLAIMED, cancellation by the creator succeeds
and the task becomes CANCELLED. -/
theorem cancelTask_ignores_claimed_participants :
    participantC2.task = taskC2.id ∧
    participantC2.status = PStatus.CLAIMED ∧
    taskC2.participants = [] ∧
    cancelTask (some taskC2) taskC2.creator =
      Except.ok { taskC2 with status := TaskStatus.CANCELLED } :=
  ⟨rfl, rfl, rfl, rfl⟩

/-- Claim C3: the claim states that the status order is a prefix of
PENDING to VERIFIED or REJECTED to CLAIMED, with REJECTED having no
successor.  confirmClaim performs no status check, so a REJECTED
participant acquires the successor status CLAIMED. -/
theorem confirmClaim_gives_rejected_a_successor :
    participantC3.status = PStatus.REJECTED ∧
    confirmClaim (some participantC3) userC3 "0xdef" 42 =
      Except.ok
        ({ participantC3 with
           status := PStatus.CLAIMED,
           claimedAt := some 42,
           transactionHash := some "0xdef" },
         { userC3 with
           totalTasksCompleted := 1,
           reputation := 10,
           totalRewardsEarned := "0" }) :=
  ⟨rfl, rfl⟩

/-- Claim C4: requestClaim never produces a second distinct signature
for the same (onChainId, claimant, amount) triple.  Signing is the
deterministic function generateClaimSignature of that triple, so when
the stored signature s is the one for the current triple, any second
requestClaim that does not fail returns exactly s and persists exactly
s. -/
theorem requestClaim_signature_idempotent
    (p pNew : Participant) (task : Task) (user : User) (s : Sig)
    (hcResp : Except Unit Bool) (sponsorEnv : SponsorEnv) (ca : String)
    (resp : ClaimResponse)
    (hstored : p.claimSignature = some s)
    (hs : s = generateClaimSignature task.contractTaskId user.walletAddress
      task.rewardPerParticipant)
    (hok : requestClaim (some p) task user hcResp sponsorEnv ca =
      Except.ok (pNew, resp)) :
    resp.signature = s ∧ pNew.claimSignature = some s := by
  simp only [requestClaim] at hok
  split at hok
  · exact absurd hok (by simp)
  · split at hok
    · exact absurd hok (by simp)
    · split at hok
      · exact absurd hok (by simp)
      · exact absurd hok (by simp)
      · simp only [Except.ok.injEq, Prod.mk.injEq] at hok
        obtain ⟨hpn, hrsp⟩ := hok
        subst hpn
        subst hrsp
        exact ⟨hs.symm, by simp [hs]⟩

/-- Claim C4 witness: a second requestClaim on participantC4, which
already stores sigC4, returns sigC4 again. -/
theorem requestClaim_signature_idempotent_witness :
    respC4.signature = sigC4 ∧ participantC4out.claimSignature = some sigC4 :=
  requestClaim_signature_idempotent participantC4 participantC4out taskC4 userC4 sigC4
    (Except.ok false) sponsorC4 "0xCC" respC4 rfl rfl rfl

/-- Claim C5: when the reward ledger reports hasClaimed = true for a
VERIFIED participant with no claimedAt, requestClaim fails with the
already-claimed-on-blockchain error before any signature is generated;
the error return means no participant write occurs, so status,
claimSignature and rewardAmount are untouched. -/
theorem requestClaim_alreadyClaimedOnChain_fails
    (p : Participant) (task : Task) (user : User) (sponsorEnv : SponsorEnv)
    (ca : String)
    (hv : p.status = PStatus.VERIFIED) (hnc : p.claimedAt = none) :
    requestClaim (some p) task user (Except.ok true) sponsorEnv ca =
      Except.error ⟨400, "Reward already claimed on blockchain"⟩ := by
  simp [requestClaim, hv, hnc]

/-- Claim C5 witness at a concrete VERIFIED participant. -/
theorem requestClaim_alreadyClaimedOnChain_fails_witness :
    requestClaim (some participantC5) taskC5 userC5 (Except.ok true) sponsorC5 "0xCC" =
      Except.error ⟨400, "Reward already claimed on blockchain"⟩ :=
  requestClaim_alreadyClaimedOnChain_fails participantC5 taskC5 userC5 sponsorC5 "0xCC"
    rfl rfl

/-- Claim C6: auto-verification is conservative.  In a degraded
environment (every provider request throws, or the target user lookup
reports not found) autoVerifyTask returns false for every task type
rather than propagating a failure, and submitProof on a PENDING
participant then succeeds with the proof recorded, proofSubmitted set
and the status left PENDING (never REJECTED). -/
theorem submitProof_conservative_on_provider_failure
    (p : Participant) (task : Task) (user : User) (pd : ProofData) (env : SnapEnv)
    (hdeg : env.degraded) (hp : p.status = PStatus.PENDING) :
    autoVerifyTask task user env = false ∧
    submitProof (some p) task user (some pd) env =
      Except.ok ({ p with proofSubmitted := true, proofData := some pd }, false) := by
  obtain ⟨h1, h2, h3, h4, h5, h6⟩ := hdeg
  have hv : autoVerifyTask task user env = false := by
    unfold autoVerifyTask verifyUserFollowsUser verifyCastLike verifyCastRecast
      verifyChannelMembership
    cases htt : task.taskType with
    | FOLLOW_USER =>
      cases task.targetData.userToFollow with
      | none => rfl
      | some u =>
        rcases h1 with h1 | h1 <;> simp [getUserByUsername, h1]
    | LIKE_CAST =>
      cases task.targetData.castHashToLike with
      | none => rfl
      | some c => simp [getCastLikes, h3]
    | RECAST_CAST =>
      cases task.targetData.castHashToRecast with
      | none => rfl
      | some c => simp [getCastRecasts, h4]
    | JOIN_CHANNEL =>
      cases task.targetData.channelToJoin with
      | none => rfl
      | some c => simp [getChannelMembers, getChannelFollowers, h5, h6]
  refine ⟨hv, ?_⟩
  simp [submitProof, hp, hv]

/-- Claim C6 witness: a concrete PENDING participant whose proof
submission meets an all-throwing Snapchain environment. -/
theorem submitProof_conservative_witness :
    autoVerifyTask taskC6 userC6 envC6 = false ∧
    submitProof (some participantC6) taskC6 userC6 (some proofC6) envC6 =
      Except.ok
        ({ participantC6 with proofSubmitted := true, proofData := some proofC6 },
         false) :=
  submitProof_conservative_on_provider_failure participantC6 taskC6 userC6 proofC6 envC6
    ⟨Or.inl rfl, rfl, rfl, rfl, rfl, rfl⟩ rfl

/-- Claim C7: the join route fails whenever the task is not ACTIVE, is
full, is expired, the pair already joined, the verified requirement is
unmet, or the minimum follower requirement is unmet; on success it
creates exactly one PENDING participant for the pair and increments
currentParticipants by exactly one, and the result always satisfies
currentParticipants less than or equal to maxParticipants. -/
theorem joinTask_guards_and_capacity
    (task : Task) (existing : Option Participant) (user : User)
    (userId taskId now : Nat) (fu : Option FUser) :
    ((task.status ≠ TaskStatus.ACTIVE ∨
      task.maxParticipants ≤ task.currentParticipants ∨
      task.expiresAt < now ∨
      existing.isSome = true ∨
      (task.requirements.mustBeVerified = true ∧ user.isVerified = false) ∨
      (0 < task.requirements.minimumFollowers ∧
       meetsMinimumFollowers task.requirements.minimumFollowers fu = false)) →
     ∃ e, joinTask (some task) existing user userId taskId now fu = Except.error e) ∧
    (∀ t2 p2,
      joinTask (some task) existing user userId taskId now fu = Except.ok (t2, p2) →
      p2.status = PStatus.PENDING ∧ p2.user = userId ∧ p2.task = taskId ∧
      p2.claimSignature = none ∧ p2.proofSubmitted = false ∧
      t2.currentParticipants = task.currentParticipants + 1 ∧
      t2.maxParticipants = task.maxParticipants ∧
      t2.currentParticipants ≤ t2.maxParticipants) := by
  constructor
  · intro hbad
    simp only [joinTask]
    split_ifs with h1 h2 h3 h4 h5 h6
    · exact ⟨_, rfl⟩
    · exact ⟨_, rfl⟩
    · exact ⟨_, rfl⟩
    · exact ⟨_, rfl⟩
    · exact ⟨_, rfl⟩
    · exact ⟨_, rfl⟩
    · exfalso
      rcases hbad with h | h | h | h | h | h
      · exact h1 h
      · exact h2 h
      · exact h3 h
      · exact h4 h
      · exact h5 (by simp [h.1, h.2])
      · exact h6 h
  · intro t2 p2 hok
    simp only [joinTask] at hok
    split_ifs at hok with h1 h2 h3 h4 h5 h6
    simp only [Except.ok.injEq, Prod.mk.injEq] at hok
    obtain ⟨ht, hp⟩ := hok
    subst ht
    subst hp
    refine ⟨rfl, rfl, rfl, rfl, rfl, rfl, rfl, ?_⟩
    simp only []
    omega

/-- Claim C7 witness: a concrete join on taskC7 succeeds, creating a
PENDING participant and raising the counter from 1 to 2, within the
capacity bound. -/
theorem joinTask_guards_and_capacity_witness :
    participantC7out.status = PStatus.PENDING ∧
    participantC7out.user = 11 ∧ participantC7out.task = 20 ∧
    participantC7out.claimSignature = none ∧
    participantC7out.proofSubmitted = false ∧
    taskC7out.currentParticipants = taskC7.currentParticipants + 1 ∧
    taskC7out.maxParticipants = taskC7.maxParticipants ∧
    taskC7out.currentParticipants ≤ taskC7out.maxParticipants :=
  (joinTask_guards_and_capacity taskC7 none userC7 11 20 5 none).2
    taskC7out participantC7out rfl

/-- Claim C8: task creation is atomic with respect to escrow.  When the
on-chain escrow call throws, no task record remains stored (the DRAFT
record is deleted) and a 500 failure is reported; whenever a record is
stored it is ACTIVE and carries the on-chain task id and transaction
hash of a successful escrow, and is also the successful response. -/
theorem createTask_escrow_atomicity
    (creatorId : Nat) (req : CreateReq) (env : CreateEnv)
    (cr : Except Unit ContractResult) :
    (cr = Except.error () →
      (createTask creatorId req env cr).1 = none ∧
      (createTask creatorId req env cr).2.isOk = false) ∧
    (∀ t, (createTask creatorId req env cr).1 = some t →
      ∃ r, cr = Except.ok r ∧ t.contractTaskId = some r.taskId ∧
        t.transactionHash = some r.transactionHash ∧
        t.status = TaskStatus.ACTIVE ∧
        (createTask creatorId req env cr).2 = Except.ok t) := by
  constructor
  · intro hcr
    subst hcr
    simp only [createTask]
    split_ifs
    · exact ⟨rfl, rfl⟩
    · exact ⟨rfl, rfl⟩
    · exact ⟨rfl, rfl⟩
    · cases validateTarget req.taskType req.targetData env <;> exact ⟨rfl, rfl⟩
  · intro t hsome
    simp only [createTask] at hsome ⊢
    split_ifs at hsome with ht1 ht2 ht3
    rw [if_neg ht1, if_neg ht2, if_neg ht3]
    cases hvt : validateTarget req.taskType req.targetData env <;> rw [hvt] at hsome
    · cases cr with
      | error e => simp at hsome
      | ok r =>
        simp only [Option.some.injEq] at hsome
        exact ⟨r, rfl, by rw [← hsome], by rw [← hsome], by rw [← hsome],
          by rw [← hsome]⟩
    · simp at hsome

/-- Claim C8 witness: with a throwing escrow call, the concrete request
reqC8 leaves no stored task and no successful response. -/
theorem createTask_escrow_atomicity_witness :
    (createTask 1 reqC8 envC8 (Except.error ())).1 = none ∧
    (createTask 1 reqC8 envC8 (Except.error ())).2.isOk = false :=
  (createTask_escrow_atomicity 1 reqC8 envC8 (Except.error ())).1 rfl

/-- Claim C9: sponsorship is strictly additive.  With a disabled
configuration, a throwing paymaster request, or a provider-level error
or malformed response (ok none), prepareSponsoredClaim returns a
sponsored = false result rather than raising, and an eligible
requestClaim still succeeds, persisting and returning the signature
with the non-sponsored fallback. -/
theorem sponsorship_strictly_additive
    (p : Participant) (task : Task) (user : User) (env : SponsorEnv) (ca : String)
    (sig : Sig) (amt : String) (tid : Option Nat) (ua : String)
    (hv : p.status = PStatus.VERIFIED) (hnc : p.claimedAt = none)
    (hbad : env.enabled = false ∨ env.paymasterResp = Except.error () ∨
      env.paymasterResp = Except.ok none) :
    (prepareSponsoredClaim env ca tid amt sig ua).sponsored = false ∧
    (∀ pNew resp,
      requestClaim (some p) task user (Except.ok false) env ca =
        Except.ok (pNew, resp) →
      resp.sponsoredEnabled = false ∧
      resp.signature = generateClaimSignature task.contractTaskId
        user.walletAddress task.rewardPerParticipant ∧
      pNew.claimSignature = some resp.signature) ∧
    (requestClaim (some p) task user (Except.ok false) env ca).isOk = true := by
  have hps : ∀ s2 a2 t2 u2,
      (prepareSponsoredClaim env ca t2 a2 s2 u2).sponsored = false := by
    intro s2 a2 t2 u2
    unfold prepareSponsoredClaim getPaymasterAndData
    rcases hbad with hb | hb | hb
    · simp [hb]
    · by_cases he : env.enabled = false <;> simp [he, hb]
    · by_cases he : env.enabled = false <;> simp [he, hb]
  refine ⟨hps sig amt tid ua, ?_, ?_⟩
  · intro pNew resp hok
    simp only [requestClaim, hv, hnc] at hok
    rw [if_neg (by simp), if_neg (by simp)] at hok
    simp only [Except.ok.injEq, Prod.mk.injEq] at hok
    obtain ⟨hpn, hrsp⟩ := hok
    subst hpn
    subst hrsp
    exact ⟨hps _ _ _ _, rfl, rfl⟩
  · simp [requestClaim, hv, hnc, Except.isOk, Except.toBool]

/-- Claim C9 witness: with sponsorship disabled, the concrete eligible
participantC9 still obtains its claim response with the non-sponsored
fallback. -/
theorem sponsorship_strictly_additive_witness :
    (prepareSponsoredClaim envC9 "0xCC" (some 7) "1000000000000000" sigC9
      "0xA9").sponsored = false ∧
    (requestClaim (some participantC9) taskC5 userC9 (Except.ok false) envC9
      "0xCC").isOk = true :=
  ⟨(sponsorship_strictly_additive participantC9 taskC5 userC9 envC9 "0xCC"
      sigC9 "1000000000000000" (some 7) "0xA9" rfl rfl (Or.inl rfl)).1,
   (sponsorship_strictly_additive participantC9 taskC5 userC9 envC9 "0xCC"
      sigC9 "1000000000000000" (some 7) "0xA9" rfl rfl (Or.inl rfl)).2.2⟩

/-- Claim C10: every successfully created task stores the hard-coded
reward constant regardless of any reward value in the request, and its
totalFunding is the arbitrary-precision product rendered as a decimal
string. -/
theorem createTask_fixed_reward_and_funding
    (creatorId : Nat) (req : CreateReq) (env : CreateEnv)
    (cr : Except Unit ContractResult) (t : Task)
    (h : (createTask creatorId req env cr).2 = Except.ok t) :
    t.rewardPerParticipant = "1000000000000000" ∧
    t.totalFunding = Nat.repr (1000000000000000 * req.maxParticipants) ∧
    ∀ r2, createTask creatorId { req with reward := r2 } env cr =
      createTask creatorId req env cr := by
  refine ⟨?_, ?_, fun r2 => rfl⟩ <;>
  · simp only [createTask] at h
    split_ifs at h
    cases hvt : validateTarget req.taskType req.targetData env <;> rw [hvt] at h
    · cases cr with
      | error e => simp at h
      | ok r =>
        simp only [Except.ok.injEq] at h
        rw [← h]
    · simp at h

/-- Claim C10 witness: the concrete request reqC10, which supplies a
reward value of 999, still yields the constant reward and the funding
product, and replacing the supplied reward value changes nothing. -/
theorem createTask_fixed_reward_and_funding_witness :
    taskC10.rewardPerParticipant = "1000000000000000" ∧
    taskC10.totalFunding = Nat.repr (1000000000000000 * reqC10.maxParticipants) ∧
    createTask 1 { reqC10 with reward := some "7" } envC10 (Except.ok crC10) =
      createTask 1 reqC10 envC10 (Except.ok crC10) := by
  have h := createTask_fixed_reward_and_funding 1 reqC10 envC10 (Except.ok crC10)
    taskC10 rfl
  exact ⟨h.1, h.2.1, h.2.2 (some "7")⟩

end FaucetClaim
